import Mathlib

/-!
Shallow embedding of the SecureFox weather proxy
(src/netlify/functions/weather.js) and proofs of the specified
properties of its single Netlify handler.

The JavaScript handler is a pure request/response translator around one
outbound fetch, so it is modelled as a total Lean function from the
incoming event, the environment secret and a stubbed upstream fetch to
the outgoing response.  JSON values are modelled by an inductive type,
and the JavaScript runtime operations the handler relies on
(String.prototype.trim, encodeURIComponent, JSON.stringify, optional
chaining, nullish coalescing, object property-key coercion) are each
given explicit definitions that follow the ECMAScript semantics.
-/

namespace SecureFox

/-- JSON values as produced by response.json().  Numbers are restricted
to integers, which covers every numeric value appearing in the handler
(upstream error codes and HTTP statuses). -/
inductive Json where
  | null : Json
  | bool (b : Bool) : Json
  | num (n : Int) : Json
  | str (s : String) : Json
  | arr (elems : List Json) : Json
  | obj (fields : List (String × Json)) : Json

/-- The incoming Netlify event: the HTTP method and the query-string
parameters, which Netlify passes as null when the URL has no query
(hence the Option). -/
structure Event where
  httpMethod : String
  queryStringParameters : Option (List (String × String))
deriving DecidableEq, Repr

/-- The response object returned by the handler on every branch. -/
structure Response where
  statusCode : Nat
  headers : List (String × String)
  body : String
deriving DecidableEq, Repr

/-- Outcome of the awaited fetch followed by response.json(): either the
whole try-block throws (network failure, or a body that is not JSON), or
it yields an HTTP status together with the parsed JSON body. -/
inductive FetchOutcome where
  | throws (message : String) : FetchOutcome
  | response (status : Nat) (data : Json) : FetchOutcome

/-! ### JavaScript runtime operations used by the handler -/

/-- The code points removed by String.prototype.trim: ECMAScript
WhiteSpace (TAB, VT, FF, SP, NBSP, ZWNBSP and the Unicode
space separators) and LineTerminator (LF, CR, LS, PS). -/
def isJsWhitespace (c : Char) : Bool :=
  let n := c.toNat
  decide ((9 ≤ n ∧ n ≤ 13) ∨ n = 32 ∨ n = 0xA0 ∨ n = 0x1680 ∨
    (0x2000 ≤ n ∧ n ≤ 0x200A) ∨ n = 0x2028 ∨ n = 0x2029 ∨
    n = 0x202F ∨ n = 0x205F ∨ n = 0x3000 ∨ n = 0xFEFF)

/-- String.prototype.trim: drop leading and trailing whitespace. -/
def jsTrim (s : String) : String :=
  ((s.toList.dropWhile isJsWhitespace).reverse.dropWhile isJsWhitespace).reverse.asString

/-- Uppercase hexadecimal digit, for percent-encoding. -/
def hexDigitUpper (n : Nat) : Char :=
  if n < 10 then Char.ofNat (48 + n) else Char.ofNat (55 + n)

/-- Two-digit uppercase hexadecimal form of a byte. -/
def byteHexUpper (b : Nat) : String :=
  String.mk [hexDigitUpper (b / 16 % 16), hexDigitUpper (b % 16)]

/-- UTF-8 encoding of a Unicode code point, as a list of bytes. -/
def utf8Bytes (n : Nat) : List Nat :=
  if n < 0x80 then [n]
  else if n < 0x800 then [0xC0 + n / 0x40, 0x80 + n % 0x40]
  else if n < 0x10000 then
    [0xE0 + n / 0x1000, 0x80 + n / 0x40 % 0x40, 0x80 + n % 0x40]
  else
    [0xF0 + n / 0x40000, 0x80 + n / 0x1000 % 0x40, 0x80 + n / 0x40 % 0x40,
      0x80 + n % 0x40]

/-- The characters encodeURIComponent leaves unescaped: ASCII letters,
digits, and - _ . ! ~ * apostrophe ( ) (given here by code point). -/
def isUriUnreserved (c : Char) : Bool :=
  let n := c.toNat
  decide ((65 ≤ n ∧ n ≤ 90) ∨ (97 ≤ n ∧ n ≤ 122) ∨ (48 ≤ n ∧ n ≤ 57) ∨
    n = 45 ∨ n = 95 ∨ n = 46 ∨ n = 33 ∨ n = 126 ∨ n = 42 ∨ n = 39 ∨
    n = 40 ∨ n = 41)

/-- encodeURIComponent on a single character: kept verbatim when
unreserved, otherwise each UTF-8 byte is written as a percent-escape
with uppercase hexadecimal digits. -/
def encodeUriChar (c : Char) : String :=
  if isUriUnreserved c then String.singleton c
  else String.join ((utf8Bytes c.toNat).map (fun b => "%" ++ byteHexUpper b))

/-- ECMAScript encodeURIComponent. -/
def encodeURIComponent (s : String) : String :=
  String.join (s.toList.map encodeUriChar)

/-- JSON.stringify escaping of one character inside a string literal:
quote and backslash are escaped, control characters below U+0020 use the
short escapes or a lowercase \u00xx escape, everything else is verbatim. -/
def escapeJsonChar (c : Char) : String :=
  if c = '"' then "\\\""
  else if c = '\\' then "\\\\"
  else if c = '\x08' then "\\b"
  else if c = '\x09' then "\\t"
  else if c = '\x0A' then "\\n"
  else if c = '\x0C' then "\\f"
  else if c = '\x0D' then "\\r"
  else if c.toNat < 32 then
    "\\u00" ++ String.mk [hexDigitLower (c.toNat / 16), hexDigitLower (c.toNat % 16)]
  else String.singleton c
where
  hexDigitLower (n : Nat) : Char :=
    if n < 10 then Char.ofNat (48 + n) else Char.ofNat (87 + n)

/-- JSON.stringify of a string value, including the surrounding quotes. -/
def quoteJsonString (s : String) : String :=
  "\"" ++ String.join (s.toList.map escapeJsonChar) ++ "\""

mutual

/-- JSON.stringify on parsed JSON values (no undefined, no functions, so
every value serializes). -/
def stringify : Json → String
  | .null => "null"
  | .bool true => "true"
  | .bool false => "false"
  | .num n => toString n
  | .str s => quoteJsonString s
  | .arr elems => "[" ++ stringifyElems elems ++ "]"
  | .obj fields => "\x7b" ++ stringifyFields fields ++ "\x7d"

/-- Comma-separated serialization of array elements. -/
def stringifyElems : List Json → String
  | [] => ""
  | [j] => stringify j
  | j :: rest => stringify j ++ "," ++ stringifyElems rest

/-- Comma-separated serialization of object members. -/
def stringifyFields : List (String × Json) → String
  | [] => ""
  | [(k, v)] => quoteJsonString k ++ ":" ++ stringify v
  | (k, v) :: rest => quoteJsonString k ++ ":" ++ stringify v ++ "," ++ stringifyFields rest

end

/-- Property read j.key (also the second step of an optional chain): a
defined value is returned only when j is an object with that member. -/
def jsGet (j : Json) (key : String) : Option Json :=
  match j with
  | .obj fields => fields.lookup key
  | _ => none

/-- Optional chaining j?.key on a possibly undefined value: undefined
propagates, and property access on a non-object yields undefined. -/
def jsGetOpt (j : Option Json) (key : String) : Option Json :=
  match j with
  | some (Json.obj fields) => fields.lookup key
  | _ => none

/-- Nullish coalescing v ?? dflt: the default is taken exactly when v is
undefined or null. -/
def jsCoalesce (v : Option Json) (dflt : Json) : Json :=
  match v with
  | some Json.null => dflt
  | some w => w
  | none => dflt

mutual

/-- ECMAScript ToPropertyKey via ToString on a JSON value, as performed
by the property access statusMap[errorCode]: numbers print in decimal,
strings pass through, arrays join their elements with commas, plain
objects print as [object Object]. -/
def jsToPropKey : Json → String
  | .null => "null"
  | .bool true => "true"
  | .bool false => "false"
  | .num n => toString n
  | .str s => s
  | .arr elems => jsArrayJoin elems
  | .obj _ => "[object Object]"

/-- Array.prototype.toString: elements joined by commas, with null
printed as the empty string. -/
def jsArrayJoin : List Json → String
  | [] => ""
  | [Json.null] => ""
  | [j] => jsToPropKey j
  | Json.null :: rest => "," ++ jsArrayJoin rest
  | j :: rest => jsToPropKey j ++ "," ++ jsArrayJoin rest

end

/-! ### The handler (weather.js), step by step as in the source -/

/-- Step 1 of the handler: the CORS headers returned on every response. -/
def headers : List (String × String) :=
  [("Access-Control-Allow-Origin", "*"),
   ("Access-Control-Allow-Headers", "Content-Type"),
   ("Content-Type", "application/json")]

/-- Body of the 405 response (step 3). -/
def methodNotAllowedBody : Json :=
  .obj [("error", .str "Method not allowed. Use GET.")]

/-- Body of the 400 response for a missing or blank city (step 4). -/
def missingCityBody : Json :=
  .obj [("error", .str "Missing required query parameter: city"),
        ("example", .str "/.netlify/functions/weather?city=Boston")]

/-- Body of the 500 response for an unset API key (step 5). -/
def configErrorBody : Json :=
  .obj [("error", .str "Server configuration error: API key not set.")]

/-- Step 6: the WeatherAPI URL, with the trimmed city percent-encoded
and the fixed days=7 and aqi=yes parameters. -/
def weatherUrl (apiKey city : String) : String :=
  "https://api.weatherapi.com/v1/forecast.json" ++
    ("?key=" ++ apiKey) ++
    ("&q=" ++ encodeURIComponent (jsTrim city)) ++
    "&days=7" ++
    "&aqi=yes"

/-- The statusMap object of step 7a.  A JavaScript object literal with
numeric keys stores them as strings, and the access statusMap[errorCode]
looks the coerced string key up, so the map is an association list keyed
by strings. -/
def statusMap : List (String × Nat) :=
  [("1006", 404), ("2006", 401), ("2007", 403), ("2008", 403),
   ("9000", 400), ("9001", 400)]

/-- response.ok of the Fetch standard: status in the inclusive range
200 to 299. -/
def responseOk (status : Nat) : Bool :=
  decide (200 ≤ status ∧ status ≤ 299)

/-- The errorCode of step 7a: data?.error?.code ?? "unknown". -/
def upstreamErrorCode (data : Json) : Json :=
  jsCoalesce (jsGetOpt (jsGet data "error") "code") (.str "unknown")

/-- The errorMessage of step 7a:
data?.error?.message ?? "Unknown error from WeatherAPI.". -/
def upstreamErrorMessage (data : Json) : Json :=
  jsCoalesce (jsGetOpt (jsGet data "error") "message") (.str "Unknown error from WeatherAPI.")

/-- The handler of weather.js.  The environment is passed as the value
of process.env.WEATHER_API_KEY (None when unset) and the awaited fetch
plus response.json() pair is passed as a stub from the requested URL to
its outcome, so the function captures exactly the branching of the
source:
steps 2 and 3 gate the method, step 4 validates the city parameter
(where the falsy test on the string covers both undefined and the empty
string, and an absent parameter object defaults to an empty one), step 5
requires the key (falsy test again), step 7 dispatches on the fetch
outcome, translating upstream error bodies through statusMap in 7a,
forwarding the payload in 7b and reporting thrown errors in 7c. -/
def handler (event : Event) (weatherApiKey : Option String)
    (fetchJson : String → FetchOutcome) : Response :=
  if event.httpMethod = "OPTIONS" then
    { statusCode := 204, headers := headers, body := "" }
  else if event.httpMethod ≠ "GET" then
    { statusCode := 405, headers := headers, body := stringify methodNotAllowedBody }
  else
    match ((event.queryStringParameters.getD []).lookup "city") with
    | none =>
        { statusCode := 400, headers := headers, body := stringify missingCityBody }
    | some city =>
        if jsTrim city = "" then
          { statusCode := 400, headers := headers, body := stringify missingCityBody }
        else
          match weatherApiKey with
          | none =>
              { statusCode := 500, headers := headers, body := stringify configErrorBody }
          | some apiKey =>
              if apiKey = "" then
                { statusCode := 500, headers := headers, body := stringify configErrorBody }
              else
                match fetchJson (weatherUrl apiKey city) with
                | .throws msg =>
                    { statusCode := 500, headers := headers,
                      body := stringify (.obj
                        [("error", .str "Failed to fetch weather data. Please try again later."),
                         ("detail", .str msg)]) }
                | .response status data =>
                    if ¬ responseOk status then
                      let errorCode := upstreamErrorCode data
                      let errorMessage := upstreamErrorMessage data
                      { statusCode := (statusMap.lookup (jsToPropKey errorCode)).getD 502,
                        headers := headers,
                        body := stringify (.obj [("error", errorMessage), ("code", errorCode)]) }
                    else
                      { statusCode := 200, headers := headers, body := stringify data }

/-! ### Specification-side definitions

These follow the wording of the specification (and of the claims), to be
compared against the behaviour of the handler above. -/

/-- Modelled from the spec: the fixed upstream-error-code table of
section 6, read literally on the JSON value found at error.code
(1006 to 404, 2006 to 401, 2007 to 403, 2008 to 403, 9000 to 400,
9001 to 400, every other code to 502). -/
def specStatusOf : Json → Nat
  | .num 1006 => 404
  | .num 2006 => 401
  | .num 2007 => 403
  | .num 2008 => 403
  | .num 9000 => 400
  | .num 9001 => 400
  | _ => 502

/-- The upstream-error-code table as the handler actually applies it:
the lookup key is the JavaScript string form of the code value, so both
the number 1006 and the string "1006" select 404, and a code whose
string form matches no table entry selects 502. -/
def coercedStatusOf (code : Json) : Nat :=
  if jsToPropKey code = "1006" then 404
  else if jsToPropKey code = "2006" then 401
  else if jsToPropKey code = "2007" then 403
  else if jsToPropKey code = "2008" then 403
  else if jsToPropKey code = "9000" then 400
  else if jsToPropKey code = "9001" then 400
  else 502

/-- The query string of a URL: everything after the first question mark
(empty when there is none). -/
def queryStringOf (url : String) : String :=
  match url.data.dropWhile (fun c => c != '?') with
  | [] => ""
  | _ :: rest => String.mk rest

/-- Whether a JSON value is an object with a member of the given name. -/
def jsonHasField (j : Json) (key : String) : Bool :=
  (jsGet j key).isSome

/-! ### Helper lemmas -/

/-- Reduction of the handler once the request has passed the method,
city and API-key gates: the response is dictated by the stubbed fetch
outcome at the constructed WeatherAPI URL. -/
theorem handler_upstream (event : Event) (apiKey city : String)
    (fetchJson : String → FetchOutcome)
    (hm : event.httpMethod = "GET")
    (hc : (event.queryStringParameters.getD []).lookup "city" = some city)
    (ht : jsTrim city ≠ "") (hk : apiKey ≠ "") :
    handler event (some apiKey) fetchJson =
      match fetchJson (weatherUrl apiKey city) with
      | .throws msg =>
          { statusCode := 500, headers := headers,
            body := stringify (.obj
              [("error", .str "Failed to fetch weather data. Please try again later."),
               ("detail", .str msg)]) }
      | .response status data =>
          if ¬ responseOk status then
            { statusCode := (statusMap.lookup (jsToPropKey (upstreamErrorCode data))).getD 502,
              headers := headers,
              body := stringify (.obj [("error", upstreamErrorMessage data),
                                       ("code", upstreamErrorCode data)]) }
          else
            { statusCode := 200, headers := headers, body := stringify data } := by
  unfold handler
  rw [hm, hc]
  simp [ht, hk]

/-- The getD 502 around the statusMap lookup agrees with the if-chain
presentation of the table. -/
theorem statusMap_lookup_eq (k : String) :
    (statusMap.lookup k).getD 502 =
      if k = "1006" then 404
      else if k = "2006" then 401
      else if k = "2007" then 403
      else if k = "2008" then 403
      else if k = "9000" then 400
      else if k = "9001" then 400
      else 502 := by
  by_cases h1 : k = "1006"
  · subst h1; rfl
  · by_cases h2 : k = "2006"
    · subst h2; rfl
    · by_cases h3 : k = "2007"
      · subst h3; rfl
      · by_cases h4 : k = "2008"
        · subst h4; rfl
        · by_cases h5 : k = "9000"
          · subst h5; rfl
          · by_cases h6 : k = "9001"
            · subst h6; rfl
            · have e1 : (k == "1006") = false := beq_eq_false_iff_ne.mpr h1
              have e2 : (k == "2006") = false := beq_eq_false_iff_ne.mpr h2
              have e3 : (k == "2007") = false := beq_eq_false_iff_ne.mpr h3
              have e4 : (k == "2008") = false := beq_eq_false_iff_ne.mpr h4
              have e5 : (k == "9000") = false := beq_eq_false_iff_ne.mpr h5
              have e6 : (k == "9001") = false := beq_eq_false_iff_ne.mpr h6
              simp [statusMap, List.lookup, e1, e2, e3, e4, e5, e6, h1, h2, h3, h4, h5, h6]

/-- dropWhile stops exactly at the first question mark. -/
theorem dropWhile_until_qmark (l rest : List Char) (h : ∀ c ∈ l, c ≠ '?') :
    (l ++ '?' :: rest).dropWhile (fun c => c != '?') = '?' :: rest := by
  induction l with
  | nil => simp [List.dropWhile]
  | cons c l ih =>
      have hc : (c != '?') = true := bne_iff_ne.mpr (h c (by simp))
      simp only [List.cons_append, List.dropWhile, hc]
      exact ih (fun x hx => h x (by simp [hx]))

/-- The query string of a URL built by appending a question mark and a
query to a base that contains no question mark is exactly that query. -/
theorem queryStringOf_append (a b : String) (h : ∀ c ∈ a.data, c ≠ '?') :
    queryStringOf (a ++ "?" ++ b) = b := by
  unfold queryStringOf
  have hd : (a ++ "?" ++ b).data = a.data ++ '?' :: b.data := by
    simp [String.data_append]
  rw [hd, dropWhile_until_qmark _ _ h]

/-! ### The claims -/

/-- C1 (corrected), counterexample to the claim as stated: with a
non-success upstream status and a parsed body whose error.code is the
JSON string "1006" rather than the number 1006, the fixed table of the
claim (specStatusOf, which maps only the listed codes and sends any
other code to 502) requires 502, but the handler returns 404, because
the JavaScript property access statusMap[errorCode] coerces the code to
its string form before the lookup. -/
theorem C1_counterexample :
    (handler { httpMethod := "GET", queryStringParameters := some [("city", "London")] }
        (some "k")
        (fun _ => .response 400 (.obj [("error", .obj [("code", .str "1006"),
          ("message", .str "No matching location found.")])]))).statusCode = 404 ∧
    specStatusOf (upstreamErrorCode (.obj [("error", .obj [("code", .str "1006"),
          ("message", .str "No matching location found.")])])) = 502 :=
  ⟨rfl, rfl⟩

/-- C1 (corrected, amended claim): for every upstream response with a
non-success HTTP status reached by a well-formed GET request, the
handler reads error.code and error.message from the parsed body with the
documented defaults, maps the code to an HTTP status by looking up the
JavaScript string form of the code in the fixed table (so 1006 to 404,
2006 to 401, 2007 to 403, 2008 to 403, 9000 to 400, 9001 to 400,
whether the code is the number or the corresponding string), maps any
code whose string form is not in the table to 502, and returns the body
consisting of the message under error and the code under code. -/
theorem C1_upstream_error_mapping (event : Event) (apiKey city : String)
    (status : Nat) (data : Json) (fetchJson : String → FetchOutcome)
    (hm : event.httpMethod = "GET")
    (hc : (event.queryStringParameters.getD []).lookup "city" = some city)
    (ht : jsTrim city ≠ "") (hk : apiKey ≠ "")
    (hf : fetchJson (weatherUrl apiKey city) = .response status data)
    (hs : responseOk status = false) :
    handler event (some apiKey) fetchJson =
      { statusCode := coercedStatusOf (upstreamErrorCode data),
        headers := headers,
        body := stringify (.obj [("error", upstreamErrorMessage data),
                                 ("code", upstreamErrorCode data)]) } := by
  rw [handler_upstream event apiKey city fetchJson hm hc ht hk, hf]
  simp [hs, coercedStatusOf, statusMap_lookup_eq]

/-- C1 witness: a body with the unmapped numeric code 9999 behind a 400
upstream response is translated per the amended mapping (to 502). -/
theorem C1_upstream_error_mapping_witness :
    handler { httpMethod := "GET", queryStringParameters := some [("city", "London")] }
        (some "k")
        (fun _ => .response 400 (.obj [("error", .obj [("code", .num 9999),
          ("message", .str "oops")])])) =
      { statusCode := coercedStatusOf (upstreamErrorCode (.obj [("error",
          .obj [("code", .num 9999), ("message", .str "oops")])])),
        headers := headers,
        body := stringify (.obj
          [("error", upstreamErrorMessage (.obj [("error",
              .obj [("code", .num 9999), ("message", .str "oops")])])),
           ("code", upstreamErrorCode (.obj [("error",
              .obj [("code", .num 9999), ("message", .str "oops")])]))]) } :=
  C1_upstream_error_mapping _ "k" "London" 400 _ _ rfl rfl (by decide) (by decide) rfl rfl

/-- C2: for every upstream response with a 2xx status and a JSON body,
the handler returns status 200 and its body is exactly the
serialization of the parsed upstream payload, with no reshaping. -/
theorem C2_success_passthrough (event : Event) (apiKey city : String)
    (status : Nat) (data : Json) (fetchJson : String → FetchOutcome)
    (hm : event.httpMethod = "GET")
    (hc : (event.queryStringParameters.getD []).lookup "city" = some city)
    (ht : jsTrim city ≠ "") (hk : apiKey ≠ "")
    (hf : fetchJson (weatherUrl apiKey city) = .response status data)
    (hs : responseOk status = true) :
    handler event (some apiKey) fetchJson =
      { statusCode := 200, headers := headers, body := stringify data } := by
  rw [handler_upstream event apiKey city fetchJson hm hc ht hk, hf]
  simp [hs]

/-- C2 witness: a stubbed 200 upstream response with a location and
forecast payload is forwarded verbatim. -/
theorem C2_success_passthrough_witness :
    handler { httpMethod := "GET", queryStringParameters := some [("city", "London")] }
        (some "k")
        (fun _ => .response 200 (.obj [("location", .obj [("name", .str "London")]),
          ("forecast", .obj [])])) =
      { statusCode := 200, headers := headers,
        body := stringify (.obj [("location", .obj [("name", .str "London")]),
          ("forecast", .obj [])]) } :=
  C2_success_passthrough _ "k" "London" 200 _ _ rfl rfl (by decide) (by decide) rfl rfl

/-- C3: for a valid city and a set API key, the query string of the
constructed upstream URL is exactly
key=(secret), q=(url-encoded trimmed city), days=7, aqi=yes in that
order; the city New York trims and percent-encodes to New%20York; and
the handler indeed requests exactly this URL (observed by a stub that
echoes the requested URL back through the thrown-error detail field). -/
theorem C3_upstream_url_query (apiKey city : String)
    (hk : apiKey ≠ "") (ht : jsTrim city ≠ "") :
    queryStringOf (weatherUrl apiKey city) =
      "key=" ++ apiKey ++ "&q=" ++ encodeURIComponent (jsTrim city) ++ "&days=7&aqi=yes" ∧
    encodeURIComponent (jsTrim " New York ") = "New%20York" ∧
    ∀ event : Event, event.httpMethod = "GET" →
      (event.queryStringParameters.getD []).lookup "city" = some city →
      handler event (some apiKey) (fun url => .throws url) =
        { statusCode := 500, headers := headers,
          body := stringify (.obj
            [("error", .str "Failed to fetch weather data. Please try again later."),
             ("detail", .str (weatherUrl apiKey city))]) } := by
  refine ⟨?_, by decide, ?_⟩
  · have hsplit : weatherUrl apiKey city =
        "https://api.weatherapi.com/v1/forecast.json" ++ "?" ++
          ("key=" ++ apiKey ++ "&q=" ++ encodeURIComponent (jsTrim city) ++ "&days=7&aqi=yes") := by
      apply String.ext
      have hA : "?key=".data = '?' :: "key=".data := rfl
      have hB : "&days=7&aqi=yes".data = "&days=7".data ++ "&aqi=yes".data := rfl
      have hC : "?".data = ['?'] := rfl
      simp [weatherUrl, String.data_append, List.append_assoc, hA, hB, hC]
    rw [hsplit, queryStringOf_append _ _ (by decide)]
  · intro event hm hc
    rw [handler_upstream event apiKey city _ hm hc ht hk]

/-- C3 witness: instantiated at the key SECRET and the city New York
(with surrounding whitespace to exercise trimming). -/
theorem C3_upstream_url_query_witness :
    queryStringOf (weatherUrl "SECRET" " New York ") =
      "key=" ++ "SECRET" ++ "&q=" ++ encodeURIComponent (jsTrim " New York ") ++ "&days=7&aqi=yes" ∧
    encodeURIComponent (jsTrim " New York ") = "New%20York" ∧
    ∀ event : Event, event.httpMethod = "GET" →
      (event.queryStringParameters.getD []).lookup "city" = some " New York " →
      handler event (some "SECRET") (fun url => .throws url) =
        { statusCode := 500, headers := headers,
          body := stringify (.obj
            [("error", .str "Failed to fetch weather data. Please try again later."),
             ("detail", .str (weatherUrl "SECRET" " New York "))]) } :=
  C3_upstream_url_query "SECRET" " New York " (by decide) (by decide)

/-- C4: for every GET request whose query parameters lack the city key,
or whose city value trims to the empty string, the handler returns 400
with the fixed body, which carries both an error and an example field;
an absent query-parameter mapping defaults to the empty mapping and
lands in the same branch. -/
theorem C4_missing_city_400 (event : Event) (env : Option String)
    (fetchJson : String → FetchOutcome)
    (hm : event.httpMethod = "GET")
    (hcity : ∀ c, (event.queryStringParameters.getD []).lookup "city" = some c →
      jsTrim c = "") :
    handler event env fetchJson =
      { statusCode := 400, headers := headers, body := stringify missingCityBody } ∧
    jsonHasField missingCityBody "error" = true ∧
    jsonHasField missingCityBody "example" = true := by
  refine ⟨?_, rfl, rfl⟩
  unfold handler
  rw [hm]
  cases hq : (event.queryStringParameters.getD []).lookup "city" with
  | none => simp [hq]
  | some c => simp [hq, hcity c hq]

/-- C4 witness: a GET request with a null query-parameter object (the
absent mapping) is rejected with the 400 body. -/
theorem C4_missing_city_400_witness :
    handler { httpMethod := "GET", queryStringParameters := none } (some "k")
        (fun _ => .throws "x") =
      { statusCode := 400, headers := headers, body := stringify missingCityBody } ∧
    jsonHasField missingCityBody "error" = true ∧
    jsonHasField missingCityBody "example" = true :=
  C4_missing_city_400 _ (some "k") _ rfl (fun _ hc => Option.noConfusion hc)

/-- C5: for every GET request with a valid city and no API key in the
environment, the handler returns 500 with the configuration-error body,
and the upstream stub is never consulted: the response is the same
under any two upstream behaviours. -/
theorem C5_missing_key_500 (event : Event) (city : String)
    (u1 u2 : String → FetchOutcome)
    (hm : event.httpMethod = "GET")
    (hc : (event.queryStringParameters.getD []).lookup "city" = some city)
    (ht : jsTrim city ≠ "") :
    handler event none u1 =
      { statusCode := 500, headers := headers, body := stringify configErrorBody } ∧
    handler event none u1 = handler event none u2 := by
  have h : ∀ u : String → FetchOutcome,
      handler event none u =
        { statusCode := 500, headers := headers, body := stringify configErrorBody } := by
    intro u
    unfold handler
    rw [hm, hc]
    simp [ht]
  exact ⟨h u1, (h u1).trans (h u2).symm⟩

/-- C5 witness: with the key unset, two upstream stubs that disagree
everywhere still yield the same 500 configuration-error response. -/
theorem C5_missing_key_500_witness :
    handler { httpMethod := "GET", queryStringParameters := some [("city", "Boston")] }
        none (fun _ => .throws "a") =
      { statusCode := 500, headers := headers, body := stringify configErrorBody } ∧
    handler { httpMethod := "GET", queryStringParameters := some [("city", "Boston")] }
        none (fun _ => .throws "a") =
      handler { httpMethod := "GET", queryStringParameters := some [("city", "Boston")] }
        none (fun _ => .response 200 .null) :=
  C5_missing_key_500 _ "Boston" _ _ rfl rfl (by decide)

/-- C6: whenever the fetch of the constructed URL (or the JSON parse of
its body) throws, the handler returns 500 with the fixed failure
message under error and the underlying error message under detail. -/
theorem C6_fetch_failure_500 (event : Event) (apiKey city msg : String)
    (fetchJson : String → FetchOutcome)
    (hm : event.httpMethod = "GET")
    (hc : (event.queryStringParameters.getD []).lookup "city" = some city)
    (ht : jsTrim city ≠ "") (hk : apiKey ≠ "")
    (hf : fetchJson (weatherUrl apiKey city) = .throws msg) :
    handler event (some apiKey) fetchJson =
      { statusCode := 500, headers := headers,
        body := stringify (.obj
          [("error", .str "Failed to fetch weather data. Please try again later."),
           ("detail", .str msg)]) } := by
  rw [handler_upstream event apiKey city fetchJson hm hc ht hk, hf]

/-- C6 witness: a simulated network failure surfaces its message in the
detail field of the 500 response. -/
theorem C6_fetch_failure_500_witness :
    handler { httpMethod := "GET", queryStringParameters := some [("city", "London")] }
        (some "k") (fun _ => .throws "getaddrinfo ENOTFOUND api.weatherapi.com") =
      { statusCode := 500, headers := headers,
        body := stringify (.obj
          [("error", .str "Failed to fetch weather data. Please try again later."),
           ("detail", .str "getaddrinfo ENOTFOUND api.weatherapi.com")]) } :=
  C6_fetch_failure_500 _ "k" "London" _ _ rfl rfl (by decide) (by decide) rfl

/-- C7: every response of the handler, on every branch, carries exactly
the CORS header triple declared at the top of the function. -/
theorem C7_cors_headers_always (event : Event) (env : Option String)
    (fetchJson : String → FetchOutcome) :
    (handler event env fetchJson).headers =
      [("Access-Control-Allow-Origin", "*"),
       ("Access-Control-Allow-Headers", "Content-Type"),
       ("Content-Type", "application/json")] := by
  unfold handler
  repeat' split
  all_goals rfl

/-- C8: every OPTIONS request, whatever its query parameters, the
environment and the upstream behaviour, is answered immediately with
status 204, an empty body and the CORS headers. -/
theorem C8_options_preflight (event : Event) (env : Option String)
    (fetchJson : String → FetchOutcome) (hm : event.httpMethod = "OPTIONS") :
    handler event env fetchJson =
      { statusCode := 204, headers := headers, body := "" } := by
  unfold handler
  rw [hm]
  simp

/-- C8 witness: the preflight branch fires even with a city parameter
present, the key unset and an upstream that would fail. -/
theorem C8_options_preflight_witness :
    handler { httpMethod := "OPTIONS", queryStringParameters := some [("city", "London")] }
        none (fun _ => .throws "x") =
      { statusCode := 204, headers := headers, body := "" } :=
  C8_options_preflight _ none _ rfl

/-- C9: the secret never flows into the response: for any two non-empty
API keys and a fixed upstream outcome (the stub returns the same
outcome whatever URL it is given, isolating what the handler itself
does with the key), the handler produces identical responses, so no
branch writes the key, in particular not the detail field of the
failure branch nor the translated upstream-error bodies. -/
theorem C9_secret_noninterference (event : Event) (k1 k2 : String)
    (o : FetchOutcome) (h1 : k1 ≠ "") (h2 : k2 ≠ "") :
    handler event (some k1) (fun _ => o) = handler event (some k2) (fun _ => o) := by
  unfold handler
  by_cases hO : event.httpMethod = "OPTIONS"
  · simp [hO]
  · by_cases hG : event.httpMethod = "GET"
    · cases hq : (event.queryStringParameters.getD []).lookup "city" with
      | none => simp [hq]
      | some c =>
          by_cases htc : jsTrim c = ""
          · simp [hq, htc]
          · simp [hq, htc, h1, h2]
    · simp [hG]

/-- C9 witness: two different keys, same upstream error outcome, same
response. -/
theorem C9_secret_noninterference_witness :
    handler { httpMethod := "GET", queryStringParameters := some [("city", "Paris")] }
        (some "alpha") (fun _ => .response 400 (.obj [("error", .obj [("code", .num 1006)])])) =
      handler { httpMethod := "GET", queryStringParameters := some [("city", "Paris")] }
        (some "beta") (fun _ => .response 400 (.obj [("error", .obj [("code", .num 1006)])])) :=
  C9_secret_noninterference _ "alpha" "beta" _ (by decide) (by decide)

/-- C10: a success (2xx) upstream status is forwarded as 200 with the
payload serialized unchanged even when the payload itself carries an
error member; the error-code translation is keyed on the upstream HTTP
status alone, never on the body contents. -/
theorem C10_success_ignores_error_field (event : Event) (apiKey city : String)
    (status : Nat) (data : Json) (fetchJson : String → FetchOutcome)
    (hm : event.httpMethod = "GET")
    (hc : (event.queryStringParameters.getD []).lookup "city" = some city)
    (ht : jsTrim city ≠ "") (hk : apiKey ≠ "")
    (hf : fetchJson (weatherUrl apiKey city) = .response status data)
    (hs : responseOk status = true)
    (herr : jsonHasField data "error" = true) :
    handler event (some apiKey) fetchJson =
      { statusCode := 200, headers := headers, body := stringify data } := by
  rw [handler_upstream event apiKey city fetchJson hm hc ht hk, hf]
  simp [hs]

/-- C10 witness: a 200 upstream response whose body carries an error
object with code 1006 is still forwarded verbatim with status 200 (not
mapped to 404). -/
theorem C10_success_ignores_error_field_witness :
    handler { httpMethod := "GET", queryStringParameters := some [("city", "London")] }
        (some "k")
        (fun _ => .response 200 (.obj [("error", .obj [("code", .num 1006),
          ("message", .str "No matching location found.")])])) =
      { statusCode := 200, headers := headers,
        body := stringify (.obj [("error", .obj [("code", .num 1006),
          ("message", .str "No matching location found.")])]) } :=
  C10_success_ignores_error_field _ "k" "London" 200 _ _ rfl rfl (by decide) (by decide)
    rfl rfl rfl

end SecureFox
